import Mathlib

/-!
# libxmlb read-side core: node views and the query façade

A shallow embedding of `src/xb-node.c` (the node-view abstraction) and
`src/xb-tool.c` (the CLI front end), together with models of their
collaborators (the silo handle, the silo-level query evaluator, GLib
helpers) which are part of this repository or its host libraries but whose
sources are not under `src/`.  Those collaborator definitions carry doc
comments starting with `Modelled from the spec:` or `Modelled from the host
library contract:`.

Conventions:
* C pointers that may be `NULL` become `Option`;
* a C function taking `GError **error` returns its value paired with
  `Option GError` (the error it wrote, if any);
* `xb_node_query_first` performs an unchecked `g_ptr_array_index` read; its
  result type is wrapped in one more `Option`, whose `none` marks that the
  read was out of bounds (undefined behaviour in the C source);
* machine integers are `Nat` with explicit bounds (`G_MAXUINT64`).
-/

/-! ## Data model: silo nodes, silos, node views -/

/-- Modelled from the spec: a packed silo node.  Each silo node carries an
element name, optional text, an attribute list, and parent/next/child links
expressed as offsets (absent link = `none`). -/
structure XbSiloNode where
  element : Option String
  text : Option String
  attrs : List (String × String)
  parent : Option Nat
  next : Option Nat
  child : Option Nat
deriving DecidableEq

/-- Modelled from the spec: a silo is an immutable store of packed nodes
addressed by offset, plus the root offset (absent for an empty silo). -/
structure XbSilo where
  nodes : List XbSiloNode
  sroot : Option Nat
deriving DecidableEq

/-- The node view of `xb-node.c`: a silo reference paired with one
silo-node offset (`struct _XbNode`). -/
structure XbNode where
  silo : XbSilo
  sn : Nat
deriving DecidableEq

/-! ## Errors (GError model) -/

/-- GLib `GIOErrorEnum` codes used by the embedded code. -/
inductive GIOErrorCode where
  | failed
  | notFound
  | invalidArgument
deriving DecidableEq

/-- A GLib `GError`: domain quark, code, message. -/
structure GError where
  domain : String
  code : GIOErrorCode
  message : String
deriving DecidableEq

/-- The `G_IO_ERROR` domain quark. -/
def gIOErrorQuark : String := "g-io-error-quark"

/-- Modelled from the spec: the single error value used by the query parser
for the *invalid-query* kind. -/
def invalidQueryError : GError :=
  ⟨gIOErrorQuark, GIOErrorCode.invalidArgument, "invalid query"⟩

/-- Modelled from the spec: the *not-found* error the evaluator reports
when a query produced zero results. -/
def noResultsError : GError :=
  ⟨gIOErrorQuark, GIOErrorCode.notFound, "no results"⟩

/-- The "no text data" *not-found* error set by `xb_node_query_text` and
`xb_node_query_text_as_uint` (src/xb-node.c lines 362-368, 428-434). -/
def noTextDataError : GError :=
  ⟨gIOErrorQuark, GIOErrorCode.notFound, "no text data"⟩

/-- `G_MAXUINT64`. -/
def G_MAXUINT64 : Nat := 2 ^ 64 - 1

/-! ## Silo primitives (collaborator) -/

/-- Modelled from the spec: look a silo node up by offset. -/
def siloNodeAt (s : XbSilo) (i : Nat) : Option XbSiloNode := s.nodes.get? i

/-- Modelled from the spec: the silo's root offset primitive. -/
def xb_silo_get_sroot (s : XbSilo) : Option Nat := s.sroot

/-- Modelled from the spec: the *parent* navigation primitive. -/
def xb_silo_node_get_parent (s : XbSilo) (i : Nat) : Option Nat :=
  (siloNodeAt s i).bind (fun nd => nd.parent)

/-- Modelled from the spec: the *next-sibling* navigation primitive. -/
def xb_silo_node_get_next (s : XbSilo) (i : Nat) : Option Nat :=
  (siloNodeAt s i).bind (fun nd => nd.next)

/-- Modelled from the spec: the *first-child* navigation primitive. -/
def xb_silo_node_get_child (s : XbSilo) (i : Nat) : Option Nat :=
  (siloNodeAt s i).bind (fun nd => nd.child)

/-- Modelled from the spec: the *element-name* projection primitive. -/
def xb_silo_node_get_element (s : XbSilo) (i : Nat) : Option String :=
  (siloNodeAt s i).bind (fun nd => nd.element)

/-- Modelled from the spec: the *text* projection primitive. -/
def xb_silo_node_get_text (s : XbSilo) (i : Nat) : Option String :=
  (siloNodeAt s i).bind (fun nd => nd.text)

/-- Modelled from the spec: attribute lookup, case-sensitive and returning
the first occurrence. -/
def xb_silo_node_get_attr (s : XbSilo) (i : Nat) (name : String) : Option String :=
  (siloNodeAt s i).bind (fun nd => (nd.attrs.find? (fun p => p.1 == name)).map (fun p => p.2))

/-- Modelled from the spec: depth by following parent links; the fuel bounds
the walk by the silo size. -/
def depthGo (s : XbSilo) : Nat → Nat → Nat
  | 0, _ => 0
  | fuel + 1, i =>
    match xb_silo_node_get_parent s i with
    | none => 0
    | some p => depthGo s fuel p + 1

/-- Modelled from the spec: the *depth* primitive, 0 at the root. -/
def xb_silo_node_get_depth (s : XbSilo) (i : Nat) : Nat :=
  depthGo s s.nodes.length i

/-- Modelled from the spec: wrap a silo offset as a fresh node view
(`xb_silo_node_create`). -/
def xb_silo_node_create (s : XbSilo) (i : Nat) : XbNode := ⟨s, i⟩

/-! ## Silo well-formedness

The spec's invariants for a loaded silo: every link lands inside the silo
and next-sibling links strictly increase (packed document order). -/

/-- `true` when the optional link is either absent or below the bound. -/
def optLtb (o : Option Nat) (n : Nat) : Bool :=
  match o with
  | none => true
  | some j => j < n

/-- Link conditions for the node stored at offset `i`. -/
def siloNodeWf (len : Nat) (i : Nat) (nd : XbSiloNode) : Bool :=
  optLtb nd.parent len && optLtb nd.child len &&
    (match nd.next with
     | none => true
     | some j => decide (i < j) && decide (j < len))

/-- Silo well-formedness: root and all links in range, next links strictly
increasing. -/
def XbSilo.wf (s : XbSilo) : Bool :=
  optLtb s.sroot s.nodes.length &&
    (List.range s.nodes.length).all (fun i =>
      match s.nodes.get? i with
      | none => true
      | some nd => siloNodeWf s.nodes.length i nd)

/-! ## Node view operations (src/xb-node.c)

Each public operation starts with its `g_return_val_if_fail` guards, so the
embedded functions take `Option`-typed arguments and return the guard's
sentinel when one is `none`. -/

/-- `xb_node_get_silo` (src lines 92-96; no guard in the source). -/
def xb_node_get_silo (n : XbNode) : XbSilo := n.silo

/-- `xb_node_get_sn` (src lines 76-80; no guard in the source). -/
def xb_node_get_sn (n : XbNode) : Nat := n.sn

/-- `xb_node_get_root` (src lines 108-117). -/
def xb_node_get_root (self : Option XbNode) : Option XbNode :=
  match self with
  | none => none
  | some n =>
    match xb_silo_get_sroot n.silo with
    | none => none
    | some r => some (xb_silo_node_create n.silo r)

/-- `xb_node_get_parent` (src lines 129-138). -/
def xb_node_get_parent (self : Option XbNode) : Option XbNode :=
  match self with
  | none => none
  | some n =>
    match xb_silo_node_get_parent n.silo n.sn with
    | none => none
    | some p => some (xb_silo_node_create n.silo p)

/-- `xb_node_get_next` (src lines 150-159). -/
def xb_node_get_next (self : Option XbNode) : Option XbNode :=
  match self with
  | none => none
  | some n =>
    match xb_silo_node_get_next n.silo n.sn with
    | none => none
    | some j => some (xb_silo_node_create n.silo j)

/-- `xb_node_get_child` (src lines 171-180). -/
def xb_node_get_child (self : Option XbNode) : Option XbNode :=
  match self with
  | none => none
  | some n =>
    match xb_silo_node_get_child n.silo n.sn with
    | none => none
    | some c => some (xb_silo_node_create n.silo c)

/-- The while loop of `xb_node_get_children` (src lines 198-203): collect
the first child, then keep following `xb_node_get_next`.  The fuel is a
modelling bound on the unbounded C loop; the silo size suffices for any
well-formed silo. -/
def childrenLoop : Nat → Option XbNode → List XbNode
  | _, none => []
  | 0, some _ => []
  | fuel + 1, some n => n :: childrenLoop fuel (xb_node_get_next (some n))

/-- `xb_node_get_children` (src lines 192-205; the source has no guard of
its own: a `NULL` self makes `xb_node_get_child` return `NULL` and the loop
produces the empty array). -/
def xb_node_get_children (self : Option XbNode) : List XbNode :=
  match self with
  | none => childrenLoop 0 (xb_node_get_child none)
  | some n => childrenLoop n.silo.nodes.length (xb_node_get_child (some n))

/-- `xb_node_get_text` (src lines 217-222). -/
def xb_node_get_text (self : Option XbNode) : Option String :=
  match self with
  | none => none
  | some n => xb_silo_node_get_text n.silo n.sn

/-- `xb_node_get_element` (src lines 234-239). -/
def xb_node_get_element (self : Option XbNode) : Option String :=
  match self with
  | none => none
  | some n => xb_silo_node_get_element n.silo n.sn

/-- `xb_node_get_attr` (src lines 252-258). -/
def xb_node_get_attr (self : Option XbNode) (name : Option String) : Option String :=
  match self, name with
  | some n, some nm => xb_silo_node_get_attr n.silo n.sn nm
  | _, _ => none

/-- `xb_node_get_depth` (src lines 270-275); the guard's sentinel is 0. -/
def xb_node_get_depth (self : Option XbNode) : Nat :=
  match self with
  | none => 0
  | some n => xb_silo_node_get_depth n.silo n.sn

/-! ## The XPath-subset query language (collaborator)

`xb-silo-query.c` is not under `src/`; the grammar and evaluation rules are
modelled from spec sections 4.2 and 6. -/

/-- A parsed predicate: positional (1-based), `@attr='lit'`, `text()='lit'`
or `name='lit'`. -/
inductive XbQueryPred where
  | pos (n : Nat)
  | attrEq (name v : String)
  | textEq (v : String)
  | nameEq (name v : String)
deriving DecidableEq

/-- A parsed step: an element selector with an optional predicate. -/
structure XbQueryStep where
  name : String
  pred : Option XbQueryPred
deriving DecidableEq

/-- The single-quote character. -/
def squoteChar : Char := Char.ofNat 39

/-- The double-quote character. -/
def dquoteChar : Char := Char.ofNat 34

/-- Modelled from the spec: split an expression on `/` separators that are
outside brackets and quoted literals.  Arguments: remaining input, bracket
depth, open quote (if any), accumulator for the current step (reversed). -/
def splitStepsAux : List Char → Nat → Option Char → List Char → List (List Char)
  | [], _, _, acc => [acc.reverse]
  | c :: rest, depth, some q, acc =>
    if c = q then splitStepsAux rest depth none (c :: acc)
    else splitStepsAux rest depth (some q) (c :: acc)
  | c :: rest, depth, none, acc =>
    if c = '/' && depth = 0 then acc.reverse :: splitStepsAux rest depth none []
    else if c = '[' then splitStepsAux rest (depth + 1) none (c :: acc)
    else if c = ']' then splitStepsAux rest (depth - 1) none (c :: acc)
    else if c = squoteChar || c = dquoteChar then splitStepsAux rest depth (some c) (c :: acc)
    else splitStepsAux rest depth none (c :: acc)

/-- Base-10 value of a digit run. -/
def digitsToNat (cs : List Char) : Nat :=
  cs.foldl (fun a c => a * 10 + (c.toNat - 48)) 0

/-- Split a character list at the first `=`. -/
def breakAtEq : List Char → Option (List Char × List Char)
  | [] => none
  | c :: r =>
    if c = '=' then some ([], r)
    else (breakAtEq r).map (fun p => (c :: p.1, p.2))

/-- Modelled from the spec: a literal is a quote-delimited run not
containing the delimiting quote; malformed literals are *invalid-query*. -/
def parseLiteral (cs : List Char) : Except GError String :=
  match cs with
  | [] => Except.error invalidQueryError
  | q :: rest =>
    if q = squoteChar || q = dquoteChar then
      match rest.getLast? with
      | none => Except.error invalidQueryError
      | some q2 =>
        if q2 = q then
          if rest.dropLast.all (fun c => c ≠ q) then Except.ok rest.dropLast.asString
          else Except.error invalidQueryError
        else Except.error invalidQueryError
    else Except.error invalidQueryError

/-- `true` when the characters start with `text()=`. -/
def textEqHead (cs : List Char) : Bool :=
  match cs with
  | 't' :: 'e' :: 'x' :: 't' :: '(' :: ')' :: '=' :: _ => true
  | _ => false

/-- Modelled from the spec: parse the inside of a `[...]` predicate.  A
digit run is positional (`[0]` is *invalid-query*); `@name=literal`,
`text()=literal` and `name=literal` are the other forms. -/
def parsePred (cs : List Char) : Except GError XbQueryPred :=
  if !cs.isEmpty && cs.all Char.isDigit then
    let n := digitsToNat cs
    if n = 0 then Except.error invalidQueryError else Except.ok (XbQueryPred.pos n)
  else
    match cs with
    | [] => Except.error invalidQueryError
    | c :: rest =>
      if c = '@' then
        match breakAtEq rest with
        | none => Except.error invalidQueryError
        | some (nm, lit) =>
          if nm.isEmpty then Except.error invalidQueryError
          else (parseLiteral lit).map (fun v => XbQueryPred.attrEq nm.asString v)
      else if textEqHead (c :: rest) then
        (parseLiteral ((c :: rest).drop 7)).map (fun v => XbQueryPred.textEq v)
      else
        match breakAtEq (c :: rest) with
        | none => Except.error invalidQueryError
        | some (nm, lit) =>
          if nm.isEmpty then Except.error invalidQueryError
          else (parseLiteral lit).map (fun v => XbQueryPred.nameEq nm.asString v)

/-- Modelled from the spec: parse one step, `name` optionally followed by a
bracketed predicate; an empty name or unbalanced bracket is
*invalid-query*. -/
def parseStep (cs : List Char) : Except GError XbQueryStep :=
  let nm := cs.takeWhile (fun c => c ≠ '[')
  let rest := cs.dropWhile (fun c => c ≠ '[')
  if nm.isEmpty then Except.error invalidQueryError
  else
    match rest with
    | [] => Except.ok ⟨nm.asString, none⟩
    | _ :: inner =>
      match inner.getLast? with
      | none => Except.error invalidQueryError
      | some last =>
        if last = ']' then
          (parsePred inner.dropLast).map (fun p => ⟨nm.asString, some p⟩)
        else Except.error invalidQueryError

/-- Modelled from the spec: parse a whole expression into its absolute flag
(leading `/`) and step list. -/
def xb_query_parse (xpath : String) : Except GError (Bool × List XbQueryStep) :=
  match xpath.toList with
  | [] => Except.error invalidQueryError
  | c :: rest =>
    if c = '/' then
      ((splitStepsAux rest 0 none []).mapM parseStep).map (fun st => (true, st))
    else
      ((splitStepsAux (c :: rest) 0 none []).mapM parseStep).map (fun st => (false, st))

/-! ## Query evaluation over silo offsets (collaborator) -/

/-- Modelled from the spec: the sibling chain starting at offset `i`
(follow `next` links); fuel bounds the walk, the silo size suffices for
well-formed silos. -/
def chainFrom (s : XbSilo) : Nat → Nat → List Nat
  | 0, _ => []
  | fuel + 1, i =>
    i :: (match xb_silo_node_get_next s i with
          | none => []
          | some j => chainFrom s fuel j)

/-- The sibling chain from `i` with the default fuel. -/
def siblingChainFrom (s : XbSilo) (i : Nat) : List Nat :=
  chainFrom s s.nodes.length i

/-- Modelled from the spec: all direct children of offset `i`, in document
order. -/
def childChainOf (s : XbSilo) (i : Nat) : List Nat :=
  match xb_silo_node_get_child s i with
  | none => []
  | some c => siblingChainFrom s c

/-- Modelled from the spec: the chain of root-level offsets. -/
def rootChain (s : XbSilo) : List Nat :=
  match s.sroot with
  | none => []
  | some r => siblingChainFrom s r

/-- Modelled from the spec: apply a predicate to the name-matched nodes of
one sibling group (positional selection is 1-based within the group). -/
def applyPred (s : XbSilo) (p : XbQueryPred) (named : List Nat) : List Nat :=
  match p with
  | XbQueryPred.pos k =>
    match named.get? (k - 1) with
    | some x => [x]
    | none => []
  | XbQueryPred.attrEq a v => named.filter (fun i => xb_silo_node_get_attr s i a == some v)
  | XbQueryPred.textEq v => named.filter (fun i => xb_silo_node_get_text s i == some v)
  | XbQueryPred.nameEq nm v =>
    named.filter (fun i =>
      (childChainOf s i).any (fun c =>
        xb_silo_node_get_element s c == some nm && xb_silo_node_get_text s c == some v))

/-- Modelled from the spec: one step over one sibling group: select the
nodes whose element matches, then apply the predicate. -/
def applyStep (s : XbSilo) (st : XbQueryStep) (group : List Nat) : List Nat :=
  let named := group.filter (fun i => xb_silo_node_get_element s i == some st.name)
  match st.pred with
  | none => named
  | some p => applyPred s p named

/-- Modelled from the spec: evaluate the steps left to right; candidates
are kept as sibling groups so that positional predicates count within one
group, and results stay in document order. -/
def evalSteps (s : XbSilo) : List XbQueryStep → List (List Nat) → List Nat
  | [], groups => groups.flatten
  | st :: rest, groups =>
    let matched := (groups.map (applyStep s st)).flatten
    match rest with
    | [] => matched
    | _ :: _ => evalSteps s rest (matched.map (childChainOf s))

/-- Modelled from the spec: the silo-level evaluator
`xb_silo_query_with_root` (xb-silo-query.c, not under `src/`).  Parses the
expression (*invalid-query* on failure), evaluates: an absolute expression
starts at the root chain, a relative one at the anchor's parent's children
(the façade prefixed the anchor's element), truncates to `limit` (0 means
all), reports *not-found* for zero results and otherwise materialises the
matches as fresh node views. -/
def xb_silo_query_with_root (s : XbSilo) (anchor : XbNode) (xpath : String) (limit : Nat) :
    Except GError (List XbNode) :=
  match xb_query_parse xpath with
  | Except.error e => Except.error e
  | Except.ok (absolute, steps) =>
    let start : List (List Nat) :=
      if absolute then [rootChain s]
      else
        match xb_silo_node_get_parent s anchor.sn with
        | some p => [childChainOf s p]
        | none => [rootChain s]
    let offsets := evalSteps s steps start
    let offsets := if limit = 0 then offsets else offsets.take limit
    if offsets.isEmpty then Except.error noResultsError
    else Except.ok (offsets.map (xb_silo_node_create s))

/-! ## GLib string helpers (host library) -/

/-- Modelled from the host library contract: `g_strjoin (sep, a, b, NULL)`
with a possibly-`NULL` first part; a `NULL` first argument terminates the
vararg list at once and yields the empty string. -/
def g_strjoin2 (sep : String) (a : Option String) (b : String) : String :=
  match a with
  | none => ""
  | some x => x ++ sep ++ b

/-- Modelled from the host library contract: `g_str_has_prefix`
(case-sensitive). -/
def g_str_has_prefix (s : String) (pre : String) : Bool :=
  List.isPrefixOf pre.toList s.toList

/-- `true` for the six ASCII whitespace characters skipped by `strtoull`. -/
def isAsciiSpace (c : Char) : Bool :=
  c.toNat = 32 || c.toNat = 9 || c.toNat = 10 || c.toNat = 11 || c.toNat = 12 || c.toNat = 13

/-- The value of one digit character in the given base, if valid. -/
def digitValBase (base : Nat) (c : Char) : Option Nat :=
  let v : Option Nat :=
    if c.isDigit then some (c.toNat - 48)
    else if 97 ≤ c.toNat && c.toNat ≤ 102 then some (c.toNat - 87)
    else if 65 ≤ c.toNat && c.toNat ≤ 70 then some (c.toNat - 55)
    else none
  v.bind (fun d => if d < base then some d else none)

/-- The maximal leading run of digits valid in the base. -/
def takeDigits (base : Nat) : List Char → List Nat
  | [] => []
  | c :: r =>
    match digitValBase base c with
    | some v => v :: takeDigits base r
    | none => []

/-- Modelled from the host library contract: `g_ascii_strtoull` — skip
ASCII whitespace, accept an optional sign, skip a `0x`/`0X` prefix in base
16, accumulate the maximal digit run (0 when there is none), return
`G_MAXUINT64` on overflow, and negate modulo 2^64 for a `-` sign. -/
def g_ascii_strtoull (str : String) (base : Nat) : Nat :=
  let cs := str.toList.dropWhile isAsciiSpace
  let signed : Bool × List Char :=
    match cs with
    | c :: r =>
      if c = '-' then (true, r)
      else if c = '+' then (false, r)
      else (false, cs)
    | [] => (false, [])
  let body :=
    if base = 16 then
      match signed.2 with
      | c0 :: c1 :: r => if c0 = '0' && (c1 = 'x' || c1 = 'X') then r else signed.2
      | _ => signed.2
    else signed.2
  let v := (takeDigits base body).foldl (fun a d => a * base + d) 0
  if v > G_MAXUINT64 then G_MAXUINT64
  else if signed.1 then (2 ^ 64 - v) % 2 ^ 64
  else v

/-! ## The query façade (src/xb-node.c) -/

/-- `xb_node_query` (src lines 292-303): guards, then prefix the expression
with the node's element name and a `/`, and delegate to the silo
evaluator.  Result: the array (or `none`) plus the error written. -/
def xb_node_query (self : Option XbNode) (xpath : Option String) (limit : Nat) :
    Option (List XbNode) × Option GError :=
  match self, xpath with
  | some n, some xp =>
    let xpath2 := g_strjoin2 "/" (xb_node_get_element (some n)) xp
    match xb_silo_query_with_root (xb_node_get_silo n) n xpath2 limit with
    | Except.error e => (none, some e)
    | Except.ok rs => (some rs, none)
  | _, _ => (none, none)

/-- `xb_node_query_first` (src lines 319-333): like `xb_node_query` with
limit 1, then an unchecked `g_ptr_array_index (results, 0)`.  The outer
`none` marks that unchecked read hitting an empty array (undefined
behaviour in C); a defined outcome is `some (result, error-written)`. -/
def xb_node_query_first (self : Option XbNode) (xpath : Option String) :
    Option (Option XbNode × Option GError) :=
  match self, xpath with
  | some n, some xp =>
    let xpath2 := g_strjoin2 "/" (xb_node_get_element (some n)) xp
    match xb_silo_query_with_root (xb_node_get_silo n) n xpath2 1 with
    | Except.error e => some (none, some e)
    | Except.ok rs =>
      match rs.head? with
      | some m => some (some m, none)
      | none => none
  | _, _ => some (none, none)

/-- `xb_node_query_text` (src lines 349-370): first match's text, setting
the "no text data" *not-found* error when the matched node has none. -/
def xb_node_query_text (self : Option XbNode) (xpath : Option String) :
    Option (Option String × Option GError) :=
  match self, xpath with
  | some n, some xp =>
    match xb_node_query_first (some n) (some xp) with
    | none => none
    | some (none, err) => some (none, err)
    | some (some m, _) =>
      match xb_node_get_text (some m) with
      | none => some (none, some noTextDataError)
      | some t => some (some t, none)
  | _, _ => some (none, none)

/-- `xb_node_query_text_as_uint` (src lines 415-438): the sentinel is
`G_MAXUINT64`; a `0x` prefix (case-sensitive) selects base 16, the digits
after it are handed to `g_ascii_strtoull`. -/
def xb_node_query_text_as_uint (self : Option XbNode) (xpath : Option String) :
    Option (Nat × Option GError) :=
  match self, xpath with
  | some n, some xp =>
    match xb_node_query_first (some n) (some xp) with
    | none => none
    | some (none, err) => some (G_MAXUINT64, err)
    | some (some m, _) =>
      match xb_node_get_text (some m) with
      | none => some (G_MAXUINT64, some noTextDataError)
      | some t =>
        if g_str_has_prefix t "0x" then
          some (g_ascii_strtoull (t.toList.drop 2).asString 16, none)
        else some (g_ascii_strtoull t 10, none)
  | _, _ => some (G_MAXUINT64, none)

/-- `xb_node_export` (src lines 452-457): guard, then delegate to the
exporter collaborator (spec section 2 leaves the exporter external, so it
is a parameter here). -/
def xb_node_export (exporter : XbSilo → XbNode → Nat → Except GError String)
    (self : Option XbNode) (flags : Nat) : Option String × Option GError :=
  match self with
  | none => (none, none)
  | some n =>
    match exporter (xb_node_get_silo n) n flags with
    | Except.error e => (none, some e)
    | Except.ok out => (some out, none)

/-- `xb_node_query_export` (src lines 387-399): export the first match
with default flags (0). -/
def xb_node_query_export (exporter : XbSilo → XbNode → Nat → Except GError String)
    (self : Option XbNode) (xpath : Option String) :
    Option (Option String × Option GError) :=
  match self, xpath with
  | some n, some xp =>
    match xb_node_query_first (some n) (some xp) with
    | none => none
    | some (none, err) => some (none, err)
    | some (some m, _) =>
      match xb_node_export exporter (some m) 0 with
    | (none, err) => some (none, err)
    | (some out, _) => some (some out, none)
  | _, _ => some (none, none)

/-! ## Reference counting model (construction, node data, destruction)

`xb_node_new` and `xb_node_set_data` are in `src/xb-node.c`; the reference
counters they manipulate live in GLib (`GObject`/`GBytes`), modelled here
as an explicit ledger: the silo's reference count and one count per
`GBytes` buffer (identified by an index). -/

/-- The reference-count ledger: the silo's count and each byte buffer's
count. -/
structure GRefHeap where
  siloRefs : Nat
  bytesRefs : List Nat
deriving DecidableEq

/-- Modelled from the host library contract: `g_bytes_ref`. -/
def g_bytes_ref (h : GRefHeap) (b : Nat) : GRefHeap :=
  { h with bytesRefs := h.bytesRefs.set b (h.bytesRefs.getD b 0 + 1) }

/-- Modelled from the host library contract: `g_bytes_unref`. -/
def g_bytes_unref (h : GRefHeap) (b : Nat) : GRefHeap :=
  { h with bytesRefs := h.bytesRefs.set b (h.bytesRefs.getD b 0 - 1) }

/-- A node-view object: the view fields plus the per-instance node-data
map (string key to byte-buffer index), as kept by `g_object_set_data`. -/
structure XbNodeObj where
  view : XbNode
  dataMap : List (String × Nat)
deriving DecidableEq

/-- `xb_node_new` (src lines 488-495): allocates the object and stores the
two pointers.  The source takes no reference on the silo, so the ledger is
returned unchanged. -/
def xb_node_new (silo : XbSilo) (sn : Nat) (h : GRefHeap) : XbNodeObj × GRefHeap :=
  (⟨⟨silo, sn⟩, []⟩, h)

/-- Key lookup in a node-data map. -/
def lookupData (m : List (String × Nat)) (k : String) : Option Nat :=
  (m.find? (fun p => p.1 == k)).map (fun p => p.2)

/-- Replace the buffer stored under an existing key. -/
def replaceData (m : List (String × Nat)) (k : String) (d : Nat) : List (String × Nat) :=
  m.map (fun p => if p.1 == k then (p.1, d) else p)

/-- `xb_node_set_data` (src lines 55-64): guards on `NULL` key or data,
otherwise `g_object_set_data_full` with `g_bytes_ref (data)` and destroy
notify `g_bytes_unref` — the new buffer gains a reference, and a replaced
entry's old buffer is released by its destroy notify. -/
def xb_node_set_data (obj : XbNodeObj) (key : Option String) (data : Option Nat)
    (h : GRefHeap) : XbNodeObj × GRefHeap :=
  match key, data with
  | some k, some d =>
    let h1 := g_bytes_ref h d
    match lookupData obj.dataMap k with
    | some old => ({ obj with dataMap := replaceData obj.dataMap k d }, g_bytes_unref h1 old)
    | none => ({ obj with dataMap := obj.dataMap ++ [(k, d)] }, h1)
  | _, _ => (obj, h)

/-- `xb_node_get_data` (src lines 37-43): guarded borrow, no count
change. -/
def xb_node_get_data (obj : XbNodeObj) (key : Option String) : Option Nat :=
  match key with
  | none => none
  | some k => lookupData obj.dataMap k

/-- `xb_node_finalize` (src lines 464-468) plus GObject disposal: the
destroy notify of every node-data entry runs (releasing its buffer), and
nothing touches the silo's count. -/
def xb_node_finalize (obj : XbNodeObj) (h : GRefHeap) : GRefHeap :=
  obj.dataMap.foldl (fun hh p => g_bytes_unref hh p.2) h

/-! ## The CLI front end (src/xb-tool.c)

The silo loader, exporter, builder and option parser are external
collaborators; they enter the model as a record of outcome functions. -/

/-- Outcomes of the collaborator calls the tool makes, keyed by the file
path handed to them. -/
structure XbToolCollab where
  silo_load : Nat → String → Option GError
  silo_to_string : String → Except GError String
  silo_export : String → Except GError String
  silo_query_first : String → String → Except GError (Option String)
  builder_import : String → Option GError
  builder_ensure : String → Option GError

/-- `XB_SILO_LOAD_FLAG_NONE`. -/
def XB_SILO_LOAD_FLAG_NONE : Nat := 0

/-- `XB_SILO_LOAD_FLAG_NO_MAGIC`. -/
def XB_SILO_LOAD_FLAG_NO_MAGIC : Nat := 1

/-- The "Invalid arguments" error each command sets when its argument
check fails (src/xb-tool.c: `G_IO_ERROR`, `G_IO_ERROR_FAILED`). -/
def invalidArgsError (expected : String) (eg : String) : GError :=
  ⟨gIOErrorQuark, GIOErrorCode.failed,
    "Invalid arguments, expected " ++ expected ++ " -- e.g. `" ++ eg ++ "`"⟩

/-- The loop of `xb_tool_dump` (src lines 176-186): one load-and-print per
argument, always of `values[0]`. -/
def xb_tool_dump_loop (collab : XbToolCollab) (flags : Nat) (file0 : String) :
    List String → Except GError Unit
  | [] => Except.ok ()
  | _ :: rest =>
    match collab.silo_load flags file0 with
    | some e => Except.error e
    | none =>
      match collab.silo_to_string file0 with
      | Except.error e => Except.error e
      | Except.ok _ => xb_tool_dump_loop collab flags file0 rest

/-- `xb_tool_dump` (src lines 155-188). -/
def xb_tool_dump (collab : XbToolCollab) (force : Bool) (values : List String) :
    Except GError Unit :=
  if values.length < 1 then Except.error (invalidArgsError "FILENAME" "example.xmlb")
  else
    let flags := if force then XB_SILO_LOAD_FLAG_NO_MAGIC else XB_SILO_LOAD_FLAG_NONE
    xb_tool_dump_loop collab flags (values.headD "") values

/-- The loop of `xb_tool_export` (src lines 211-226). -/
def xb_tool_export_loop (collab : XbToolCollab) (flags : Nat) (file0 : String) :
    List String → Except GError Unit
  | [] => Except.ok ()
  | _ :: rest =>
    match collab.silo_load flags file0 with
    | some e => Except.error e
    | none =>
      match collab.silo_export file0 with
      | Except.error e => Except.error e
      | Except.ok _ => xb_tool_export_loop collab flags file0 rest

/-- `xb_tool_export` (src lines 190-228). -/
def xb_tool_export (collab : XbToolCollab) (force : Bool) (values : List String) :
    Except GError Unit :=
  if values.length < 1 then Except.error (invalidArgsError "FILENAME" "example.xmlb")
  else
    let flags := if force then XB_SILO_LOAD_FLAG_NO_MAGIC else XB_SILO_LOAD_FLAG_NONE
    xb_tool_export_loop collab flags (values.headD "") values

/-- `xb_tool_query` (src lines 230-260): exactly two arguments, load with
no flags, then a first-match query. -/
def xb_tool_query (collab : XbToolCollab) (values : List String) : Except GError Unit :=
  if values.length ≠ 2 then Except.error (invalidArgsError "FILENAME QUERY" "example.xmlb")
  else
    match collab.silo_load XB_SILO_LOAD_FLAG_NONE (values.headD "") with
    | some e => Except.error e
    | none =>
      match collab.silo_query_first (values.headD "") (values.getD 1 "") with
      | Except.error e => Except.error e
      | Except.ok _ => Except.ok ()

/-- The import loop of `xb_tool_compile` (src lines 281-285). -/
def xb_tool_compile_loop (collab : XbToolCollab) : List String → Except GError Unit
  | [] => Except.ok ()
  | v :: rest =>
    match collab.builder_import v with
    | some e => Except.error e
    | none => xb_tool_compile_loop collab rest

/-- `xb_tool_compile` (src lines 262-296): at least two arguments; imports
`values[1..]` and ensures into `values[0]`. -/
def xb_tool_compile (collab : XbToolCollab) (values : List String) : Except GError Unit :=
  if values.length < 2 then
    Except.error (invalidArgsError "FILE-IN FILE-OUT" "example.xml example.xmlb")
  else
    match xb_tool_compile_loop collab (values.drop 1) with
    | Except.error e => Except.error e
    | Except.ok _ =>
      match collab.builder_ensure (values.headD "") with
      | some e => Except.error e
      | none => Except.ok ()

/-- Modelled from the host library contract: `g_strcmp0 (a, b) == 0` with
a possibly-`NULL` first argument against a literal. -/
def g_strcmp0_eq (a : Option String) (b : String) : Bool :=
  match a with
  | none => false
  | some x => x == b

/-- `xb_tool_run` (src lines 134-153): look the command up in the sorted
command array and dispatch; otherwise the `G_IO_ERROR_FAILED` "Command not
found" error. -/
def xb_tool_run (collab : XbToolCollab) (force : Bool) (cmd : Option String)
    (values : List String) : Except GError Unit :=
  if g_strcmp0_eq cmd "compile" then xb_tool_compile collab values
  else if g_strcmp0_eq cmd "dump" then xb_tool_dump collab force values
  else if g_strcmp0_eq cmd "export" then xb_tool_export collab force values
  else if g_strcmp0_eq cmd "query" then xb_tool_query collab values
  else Except.error ⟨gIOErrorQuark, GIOErrorCode.failed, "Command not found"⟩

/-- What `main` leaves behind: the process exit code, whether the usage
help was printed, and the error message printed (if any). -/
structure CliOutcome where
  exitCode : Nat
  printedHelp : Bool
  printedError : Option String
deriving DecidableEq

/-- `EXIT_SUCCESS`. -/
def EXIT_SUCCESS : Nat := 0

/-- `EXIT_FAILURE`. -/
def EXIT_FAILURE : Nat := 1

/-- Modelled from the host library contract: `g_error_matches`. -/
def g_error_matches (e : GError) (domain : String) (code : GIOErrorCode) : Bool :=
  decide (e.domain = domain ∧ e.code = code)

/-- `main` (src lines 298-379) from option parsing onwards: an option
parse failure prints its own message and exits 1 without help; a command
failure prints the message and exits 1, with the usage help exactly when
the error matches `G_IO_ERROR` / `G_IO_ERROR_FAILED`; success exits 0.
Option parsing itself is external and enters as its outcome. -/
def xb_tool_main (parseError : Option String) (collab : XbToolCollab) (force : Bool)
    (cmd : Option String) (values : List String) : CliOutcome :=
  match parseError with
  | some m => ⟨EXIT_FAILURE, false, some ("Failed to parse arguments: " ++ m)⟩
  | none =>
    match xb_tool_run collab force cmd values with
    | Except.ok _ => ⟨EXIT_SUCCESS, false, none⟩
    | Except.error e =>
      if g_error_matches e gIOErrorQuark GIOErrorCode.failed then
        ⟨EXIT_FAILURE, true, some e.message⟩
      else
        ⟨EXIT_FAILURE, false, some e.message⟩

/-- `true` when a produced error is one of the tool's own
"Invalid arguments" errors. -/
def isInvalidArgsMessage (e : GError) : Bool :=
  List.isPrefixOf "Invalid arguments".toList e.message.toList

/-- A collaborator record whose calls all succeed. -/
def collabOk : XbToolCollab :=
  { silo_load := fun _ _ => none,
    silo_to_string := fun _ => Except.ok "",
    silo_export := fun _ => Except.ok "",
    silo_query_first := fun _ _ => Except.ok none,
    builder_import := fun _ => none,
    builder_ensure := fun _ => none }

/-! ## Concrete silos for witnesses and counterexamples -/

/-- The silo compiled from `<a><b>nope</b></a>`. -/
def siloNope : XbSilo :=
  { nodes :=
      [ { element := some "a", text := none, attrs := [],
          parent := none, next := none, child := some 1 },
        { element := some "b", text := some "nope", attrs := [],
          parent := some 0, next := none, child := none } ],
    sroot := some 0 }

/-- The root view of `siloNope`. -/
def nodeA : XbNode := ⟨siloNope, 0⟩

/-- The silo compiled from `<a><b>0xffffffffffffffff</b></a>`. -/
def siloMax : XbSilo :=
  { nodes :=
      [ { element := some "a", text := none, attrs := [],
          parent := none, next := none, child := some 1 },
        { element := some "b", text := some "0xffffffffffffffff", attrs := [],
          parent := some 0, next := none, child := none } ],
    sroot := some 0 }

/-- The root view of `siloMax`. -/
def nodeAMax : XbNode := ⟨siloMax, 0⟩

/-- The silo compiled from `<a><b/><c/><d/></a>`. -/
def siloKids : XbSilo :=
  { nodes :=
      [ { element := some "a", text := none, attrs := [],
          parent := none, next := none, child := some 1 },
        { element := some "b", text := none, attrs := [],
          parent := some 0, next := some 2, child := none },
        { element := some "c", text := none, attrs := [],
          parent := some 0, next := some 3, child := none },
        { element := some "d", text := none, attrs := [],
          parent := some 0, next := none, child := none } ],
    sroot := some 0 }

/-- The root view of `siloKids`. -/
def nodeKids : XbNode := ⟨siloKids, 0⟩

/-- The spec-side sibling enumeration: the k-th iterate of the silo's
*next* primitive.  `children` is checked against this function. -/
def nextIter (s : XbSilo) : Nat → Option Nat → Option Nat
  | 0, o => o
  | k + 1, o => nextIter s k (o.bind (xb_silo_node_get_next s))

/-! ## Well-formedness consequences -/

theorem wf_node_aux {s : XbSilo} (hwf : s.wf = true) {i : Nat} (hi : i < s.nodes.length)
    {nd : XbSiloNode} (hnd : s.nodes.get? i = some nd) :
    siloNodeWf s.nodes.length i nd = true := by
  unfold XbSilo.wf at hwf
  rw [Bool.and_eq_true] at hwf
  have h2 := hwf.2
  rw [List.all_eq_true] at h2
  have h3 := h2 i (List.mem_range.mpr hi)
  rw [hnd] at h3
  exact h3

theorem siloNodeWf_next {len i : Nat} {nd : XbSiloNode} (h : siloNodeWf len i nd = true)
    {j : Nat} (hj : nd.next = some j) : i < j ∧ j < len := by
  unfold siloNodeWf at h
  rw [Bool.and_eq_true] at h
  have h3 := h.2
  rw [hj] at h3
  simp only [Bool.and_eq_true, decide_eq_true_eq] at h3
  exact h3

theorem siloNodeWf_parent {len i : Nat} {nd : XbSiloNode} (h : siloNodeWf len i nd = true)
    {j : Nat} (hj : nd.parent = some j) : j < len := by
  unfold siloNodeWf at h
  rw [Bool.and_eq_true, Bool.and_eq_true] at h
  have h1 := h.1.1
  rw [hj] at h1
  simpa [optLtb] using h1

theorem siloNodeWf_child {len i : Nat} {nd : XbSiloNode} (h : siloNodeWf len i nd = true)
    {j : Nat} (hj : nd.child = some j) : j < len := by
  unfold siloNodeWf at h
  rw [Bool.and_eq_true, Bool.and_eq_true] at h
  have h1 := h.1.2
  rw [hj] at h1
  simpa [optLtb] using h1

theorem silo_sroot_lt {s : XbSilo} (hwf : s.wf = true) {r : Nat}
    (hr : s.sroot = some r) : r < s.nodes.length := by
  unfold XbSilo.wf at hwf
  rw [Bool.and_eq_true] at hwf
  have h1 := hwf.1
  rw [hr] at h1
  simpa [optLtb] using h1

theorem silo_next_bounds {s : XbSilo} (hwf : s.wf = true) {i j : Nat}
    (h : xb_silo_node_get_next s i = some j) : i < j ∧ j < s.nodes.length := by
  unfold xb_silo_node_get_next siloNodeAt at h
  rcases Option.bind_eq_some.mp h with ⟨nd, hnd, hj⟩
  have hi : i < s.nodes.length := (List.get?_eq_some.mp hnd).1
  exact siloNodeWf_next (wf_node_aux hwf hi hnd) hj

theorem silo_parent_lt {s : XbSilo} (hwf : s.wf = true) {i j : Nat}
    (h : xb_silo_node_get_parent s i = some j) : j < s.nodes.length := by
  unfold xb_silo_node_get_parent siloNodeAt at h
  rcases Option.bind_eq_some.mp h with ⟨nd, hnd, hj⟩
  have hi : i < s.nodes.length := (List.get?_eq_some.mp hnd).1
  exact siloNodeWf_parent (wf_node_aux hwf hi hnd) hj

theorem silo_child_lt {s : XbSilo} (hwf : s.wf = true) {i j : Nat}
    (h : xb_silo_node_get_child s i = some j) : j < s.nodes.length := by
  unfold xb_silo_node_get_child siloNodeAt at h
  rcases Option.bind_eq_some.mp h with ⟨nd, hnd, hj⟩
  have hi : i < s.nodes.length := (List.get?_eq_some.mp hnd).1
  exact siloNodeWf_child (wf_node_aux hwf hi hnd) hj

/-! ## Sibling chains -/

theorem nextIter_of_none (s : XbSilo) (k : Nat) : nextIter s k none = none := by
  induction k with
  | zero => rfl
  | succ k ih => simpa [nextIter] using ih

theorem chainFrom_length_le (s : XbSilo) : ∀ fuel i, (chainFrom s fuel i).length ≤ fuel := by
  intro fuel
  induction fuel with
  | zero => intro i; simp [chainFrom]
  | succ fuel ih =>
    intro i
    simp only [chainFrom]
    cases hnext : xb_silo_node_get_next s i with
    | none => simp [hnext]
    | some j => simpa [hnext] using ih j

theorem chainFrom_getElem {s : XbSilo} (hwf : s.wf = true) :
    ∀ fuel i, i < s.nodes.length → s.nodes.length - i ≤ fuel →
      ∀ k, (chainFrom s fuel i)[k]? = nextIter s k (some i) := by
  intro fuel
  induction fuel with
  | zero => intro i hi hfuel k; omega
  | succ fuel ih =>
    intro i hi hfuel k
    cases k with
    | zero => simp [chainFrom, nextIter]
    | succ k =>
      have hstep : nextIter s (k + 1) (some i) = nextIter s k (xb_silo_node_get_next s i) := rfl
      rw [hstep]
      simp only [chainFrom]
      cases hnext : xb_silo_node_get_next s i with
      | none => simp [nextIter_of_none]
      | some j =>
        have hb := silo_next_bounds hwf hnext
        have : (chainFrom s fuel j)[k]? = nextIter s k (some j) :=
          ih j hb.2 (by omega) k
        simpa using this

theorem chainFrom_chain' {s : XbSilo} (hwf : s.wf = true) :
    ∀ fuel i, i < s.nodes.length → List.Chain' (fun a b => a < b) (chainFrom s fuel i) := by
  intro fuel
  induction fuel with
  | zero => intro i _; simp [chainFrom]
  | succ fuel ih =>
    intro i hi
    simp only [chainFrom]
    cases hnext : xb_silo_node_get_next s i with
    | none => simp [hnext]
    | some j =>
      have hb := silo_next_bounds hwf hnext
      rw [List.chain'_cons']
      refine ⟨?_, ih j hb.2⟩
      intro b hb'
      cases fuel with
      | zero => simp [chainFrom] at hb'
      | succ fuel =>
        simp only [chainFrom] at hb'
        simp only [List.head?_cons, Option.mem_def, Option.some.injEq] at hb'
        omega

theorem childrenLoop_eq_chain (s : XbSilo) :
    ∀ fuel i, childrenLoop fuel (some ⟨s, i⟩) =
      (chainFrom s fuel i).map (fun o => (⟨s, o⟩ : XbNode)) := by
  intro fuel
  induction fuel with
  | zero => intro i; rfl
  | succ fuel ih =>
    intro i
    simp only [childrenLoop, chainFrom]
    cases hnext : xb_silo_node_get_next s i with
    | none => simp [xb_node_get_next, hnext, childrenLoop]
    | some j => simp [xb_node_get_next, hnext, xb_silo_node_create, ih j]

/-! ## Parser and evaluator facts -/

theorem exceptMap_error {α β : Type} {x : Except GError α} {f : α → β} {e : GError}
    (h : x.map f = Except.error e) : x = Except.error e := by
  cases x with
  | error e' => simpa [Except.map] using h
  | ok v => simp [Except.map] at h

theorem parseLiteral_error {cs : List Char} {e : GError}
    (h : parseLiteral cs = Except.error e) : e = invalidQueryError := by
  unfold parseLiteral at h
  repeat' split at h
  all_goals simp_all

theorem parsePred_error {cs : List Char} {e : GError}
    (h : parsePred cs = Except.error e) : e = invalidQueryError := by
  unfold parsePred at h
  dsimp only at h
  repeat' split at h
  all_goals first
    | (exact parseLiteral_error (exceptMap_error h))
    | simp_all

theorem parseStep_error {cs : List Char} {e : GError}
    (h : parseStep cs = Except.error e) : e = invalidQueryError := by
  unfold parseStep at h
  dsimp only at h
  repeat' split at h
  all_goals first
    | (exact parsePred_error (exceptMap_error h))
    | simp_all

theorem mapM_parseStep_error : ∀ {l : List (List Char)} {e : GError},
    l.mapM parseStep = Except.error e → e = invalidQueryError := by
  intro l
  induction l with
  | nil => intro e h; simp [List.mapM, List.mapM.loop, pure, Except.pure] at h
  | cons a as ih =>
    intro e h
    rw [List.mapM_cons] at h
    cases ha : parseStep a with
    | error e' =>
      rw [ha] at h
      simp only [bind, Except.bind] at h
      cases h
      exact parseStep_error ha
    | ok st =>
      rw [ha] at h
      simp only [bind, Except.bind] at h
      cases hm : as.mapM parseStep with
      | error e' =>
        rw [hm] at h
        simp only [bind, Except.bind] at h
        cases h
        exact ih hm
      | ok sts =>
        rw [hm] at h
        simp [bind, Except.bind, pure, Except.pure] at h

theorem xb_query_parse_error {x : String} {e : GError}
    (h : xb_query_parse x = Except.error e) : e = invalidQueryError := by
  unfold xb_query_parse at h
  split at h
  · simp_all
  · split at h
    · exact mapM_parseStep_error (exceptMap_error h)
    · exact mapM_parseStep_error (exceptMap_error h)

theorem xb_silo_query_ok_ne_nil {s : XbSilo} {a : XbNode} {x : String} {l : Nat}
    {rs : List XbNode} (h : xb_silo_query_with_root s a x l = Except.ok rs) : rs ≠ [] := by
  unfold xb_silo_query_with_root at h
  split at h
  · exact Except.noConfusion h
  · dsimp only at h
    repeat' split at h
    all_goals try exact Except.noConfusion h
    all_goals (
      injection h with h'
      intro hnil
      rw [hnil] at h'
      have hofs := List.map_eq_nil_iff.mp h'
      simp_all)

theorem xb_silo_query_error_cases {s : XbSilo} {a : XbNode} {x : String} {l : Nat}
    {e : GError} (h : xb_silo_query_with_root s a x l = Except.error e) :
    e = invalidQueryError ∨ e = noResultsError := by
  unfold xb_silo_query_with_root at h
  split at h
  · next e' hp =>
    injection h with h'
    exact Or.inl (h' ▸ xb_query_parse_error hp)
  · dsimp only at h
    repeat' split at h
    all_goals try exact Except.noConfusion h
    all_goals (injection h with h'; exact Or.inr h'.symm)

theorem query_first_cases (n : XbNode) (xp : String) :
    (∃ m rs, xb_silo_query_with_root n.silo n
        (g_strjoin2 "/" (xb_node_get_element (some n)) xp) 1 = Except.ok (m :: rs) ∧
      xb_node_query_first (some n) (some xp) = some (some m, none)) ∨
    (∃ e, xb_silo_query_with_root n.silo n
        (g_strjoin2 "/" (xb_node_get_element (some n)) xp) 1 = Except.error e ∧
      xb_node_query_first (some n) (some xp) = some (none, some e)) := by
  cases hq : xb_silo_query_with_root n.silo n
      (g_strjoin2 "/" (xb_node_get_element (some n)) xp) 1 with
  | error e =>
    right
    refine ⟨e, rfl, ?_⟩
    unfold xb_node_query_first
    simp [xb_node_get_silo, hq]
  | ok rs =>
    obtain ⟨m, rs', rfl⟩ := List.exists_cons_of_ne_nil (xb_silo_query_ok_ne_nil hq)
    left
    refine ⟨m, rs', rfl, ?_⟩
    unfold xb_node_query_first
    simp [xb_node_get_silo, hq]

/-- C7: every public node-view operation rejects a `NULL` anchor, `NULL`
expression or `NULL` key/name defensively, returning the sentinel of its
return type with no other effect: `none` for pointer results, the empty
array for `children`, `G_MAXUINT64` for `query_text_as_uint`, 0 for
`depth`, and an unchanged object/ledger for `set_data`.  No error is
written on any guard path. -/
theorem xb_node_precondition_sentinels :
    (xb_node_get_root none = none) ∧
    (xb_node_get_parent none = none) ∧
    (xb_node_get_next none = none) ∧
    (xb_node_get_child none = none) ∧
    (xb_node_get_children none = []) ∧
    (xb_node_get_text none = none) ∧
    (xb_node_get_element none = none) ∧
    (∀ nm, xb_node_get_attr none nm = none) ∧
    (∀ n, xb_node_get_attr (some n) none = none) ∧
    (xb_node_get_depth none = 0) ∧
    (∀ xp lim, xb_node_query none xp lim = (none, none)) ∧
    (∀ n lim, xb_node_query (some n) none lim = (none, none)) ∧
    (∀ xp, xb_node_query_first none xp = some (none, none)) ∧
    (∀ n, xb_node_query_first (some n) none = some (none, none)) ∧
    (∀ xp, xb_node_query_text none xp = some (none, none)) ∧
    (∀ n, xb_node_query_text (some n) none = some (none, none)) ∧
    (∀ xp, xb_node_query_text_as_uint none xp = some (G_MAXUINT64, none)) ∧
    (∀ n, xb_node_query_text_as_uint (some n) none = some (G_MAXUINT64, none)) ∧
    (∀ ex fl, xb_node_export ex none fl = (none, none)) ∧
    (∀ ex xp, xb_node_query_export ex none xp = some (none, none)) ∧
    (∀ ex n, xb_node_query_export ex (some n) none = some (none, none)) ∧
    (∀ obj d h, xb_node_set_data obj none d h = (obj, h)) ∧
    (∀ obj k h, xb_node_set_data obj k none h = (obj, h)) ∧
    (∀ obj, xb_node_get_data obj none = none) := by
  refine ⟨rfl, rfl, rfl, rfl, rfl, rfl, rfl, fun nm => rfl, fun n => rfl, rfl,
    fun xp lim => rfl, fun n lim => rfl, fun xp => rfl, fun n => rfl, fun xp => rfl,
    fun n => rfl, fun xp => rfl, fun n => rfl, fun ex fl => rfl, fun ex xp => rfl,
    fun ex n => rfl, fun obj d h => ?_, fun obj k h => ?_, fun obj => rfl⟩
  · cases d <;> rfl
  · cases k <;> rfl

/-- C5: on a well-formed silo, the traversal operations `parent`, `next`,
`child` and `root` never produce an error value: each returns a fresh node
view over the same silo, with an in-range offset, exactly when the silo
primitive yields a node, and `none` exactly when the primitive reports
absence (`root` is `none` exactly on an empty silo). -/
theorem xb_node_traversal_absence_safe (s : XbSilo) (i : Nat)
    (hwf : s.wf = true) (hi : i < s.nodes.length) :
    ((∀ m, xb_node_get_parent (some ⟨s, i⟩) = some m →
        m.silo = s ∧ m.sn < s.nodes.length) ∧
      (xb_node_get_parent (some ⟨s, i⟩) = none ↔ xb_silo_node_get_parent s i = none)) ∧
    ((∀ m, xb_node_get_next (some ⟨s, i⟩) = some m →
        m.silo = s ∧ m.sn < s.nodes.length) ∧
      (xb_node_get_next (some ⟨s, i⟩) = none ↔ xb_silo_node_get_next s i = none)) ∧
    ((∀ m, xb_node_get_child (some ⟨s, i⟩) = some m →
        m.silo = s ∧ m.sn < s.nodes.length) ∧
      (xb_node_get_child (some ⟨s, i⟩) = none ↔ xb_silo_node_get_child s i = none)) ∧
    ((∀ m, xb_node_get_root (some ⟨s, i⟩) = some m →
        m.silo = s ∧ m.sn < s.nodes.length) ∧
      (xb_node_get_root (some ⟨s, i⟩) = none ↔ xb_silo_get_sroot s = none)) := by
  refine ⟨⟨?_, ?_⟩, ⟨?_, ?_⟩, ⟨?_, ?_⟩, ⟨?_, ?_⟩⟩
  · intro m hm
    simp only [xb_node_get_parent] at hm
    cases hp : xb_silo_node_get_parent s i with
    | none => rw [hp] at hm; exact Option.noConfusion hm
    | some p =>
      rw [hp] at hm
      simp only [xb_silo_node_create, Option.some.injEq] at hm
      subst hm
      exact ⟨rfl, silo_parent_lt hwf hp⟩
  · simp only [xb_node_get_parent]
    cases hp : xb_silo_node_get_parent s i <;> simp
  · intro m hm
    simp only [xb_node_get_next] at hm
    cases hp : xb_silo_node_get_next s i with
    | none => rw [hp] at hm; exact Option.noConfusion hm
    | some j =>
      rw [hp] at hm
      simp only [xb_silo_node_create, Option.some.injEq] at hm
      subst hm
      exact ⟨rfl, (silo_next_bounds hwf hp).2⟩
  · simp only [xb_node_get_next]
    cases hp : xb_silo_node_get_next s i <;> simp
  · intro m hm
    simp only [xb_node_get_child] at hm
    cases hp : xb_silo_node_get_child s i with
    | none => rw [hp] at hm; exact Option.noConfusion hm
    | some c =>
      rw [hp] at hm
      simp only [xb_silo_node_create, Option.some.injEq] at hm
      subst hm
      exact ⟨rfl, silo_child_lt hwf hp⟩
  · simp only [xb_node_get_child]
    cases hp : xb_silo_node_get_child s i <;> simp
  · intro m hm
    simp only [xb_node_get_root] at hm
    cases hp : xb_silo_get_sroot s with
    | none => rw [hp] at hm; exact Option.noConfusion hm
    | some r =>
      rw [hp] at hm
      simp only [xb_silo_node_create, Option.some.injEq] at hm
      subst hm
      exact ⟨rfl, silo_sroot_lt hwf hp⟩
  · simp only [xb_node_get_root]
    cases hp : xb_silo_get_sroot s <;> simp

/-- C10: `xb_node_query_first` reads index 0 of the evaluator's result
array without a bounds check.  Under the invariant that every successful
evaluator result for the limit-1 query is non-empty, the unchecked read
stays in bounds (the outcome is never the undefined-behaviour marker), and
when the evaluator fails the function returns no node and propagates the
evaluator's error value verbatim. -/
theorem xb_node_query_first_unchecked_index_safe (n : XbNode) (xp : String)
    (hinv : ∀ rs, xb_silo_query_with_root n.silo n
        (g_strjoin2 "/" (xb_node_get_element (some n)) xp) 1 = Except.ok rs → rs ≠ []) :
    xb_node_query_first (some n) (some xp) ≠ none ∧
    (∀ e, xb_silo_query_with_root n.silo n
        (g_strjoin2 "/" (xb_node_get_element (some n)) xp) 1 = Except.error e →
      xb_node_query_first (some n) (some xp) = some (none, some e)) := by
  cases hq : xb_silo_query_with_root n.silo n
      (g_strjoin2 "/" (xb_node_get_element (some n)) xp) 1 with
  | error e' =>
    have hqf : xb_node_query_first (some n) (some xp) = some (none, some e') := by
      unfold xb_node_query_first
      simp [xb_node_get_silo, hq]
    refine ⟨by simp [hqf], ?_⟩
    intro e he
    injection he with he'
    rw [← he']
    exact hqf
  | ok rs =>
    obtain ⟨m, rs', rfl⟩ := List.exists_cons_of_ne_nil (hinv rs hq)
    have hqf : xb_node_query_first (some n) (some xp) = some (some m, none) := by
      unfold xb_node_query_first
      simp [xb_node_get_silo, hq]
    refine ⟨by simp [hqf], ?_⟩
    intro e he
    exact Except.noConfusion he

/-- C10 witness: on the concrete silo for `<a><b>nope</b></a>` the
invariant hypothesis is discharged by `xb_silo_query_ok_ne_nil` and the
unchecked read is in bounds. -/
theorem xb_node_query_first_unchecked_index_safe_witness :
    xb_node_query_first (some nodeA) (some "b") ≠ none :=
  (xb_node_query_first_unchecked_index_safe nodeA "b"
    (fun _ h => xb_silo_query_ok_ne_nil h)).1

/-- C3: `xb_node_query_first` is `xb_node_query` with limit 1 followed by
taking the single (first) match: it succeeds with `m` exactly when the
limit-1 query succeeds with an array whose head is `m`, and it fails with
an error exactly when the limit-1 query fails with that same error. -/
theorem xb_node_query_first_is_limit_one_query (n : XbNode) (xp : String) :
    (∀ m, xb_node_query_first (some n) (some xp) = some (some m, none) ↔
       ∃ rs, xb_node_query (some n) (some xp) 1 = (some rs, none) ∧ rs.head? = some m) ∧
    (∀ e, xb_node_query_first (some n) (some xp) = some (none, some e) ↔
       xb_node_query (some n) (some xp) 1 = (none, some e)) := by
  cases hq : xb_silo_query_with_root n.silo n
      (g_strjoin2 "/" (xb_node_get_element (some n)) xp) 1 with
  | error e' =>
    have hqf : xb_node_query_first (some n) (some xp) = some (none, some e') := by
      unfold xb_node_query_first
      simp [xb_node_get_silo, hq]
    have hqq : xb_node_query (some n) (some xp) 1 = (none, some e') := by
      unfold xb_node_query
      simp [xb_node_get_silo, hq]
    refine ⟨fun m => ?_, fun e => ?_⟩ <;> simp [hqf, hqq]
  | ok rs =>
    obtain ⟨m0, rs', rfl⟩ := List.exists_cons_of_ne_nil (xb_silo_query_ok_ne_nil hq)
    have hqf : xb_node_query_first (some n) (some xp) = some (some m0, none) := by
      unfold xb_node_query_first
      simp [xb_node_get_silo, hq]
    have hqq : xb_node_query (some n) (some xp) 1 = (some (m0 :: rs'), none) := by
      unfold xb_node_query
      simp [xb_node_get_silo, hq]
    refine ⟨fun m => ?_, fun e => ?_⟩
    · rw [hqf, hqq]
      constructor
      · intro h'
        simp only [Option.some.injEq, Prod.mk.injEq] at h'
        refine ⟨m0 :: rs', rfl, ?_⟩
        simp [h'.1.symm]
      · rintro ⟨rs2, hrs2, hhead⟩
        simp only [Prod.mk.injEq, Option.some.injEq] at hrs2
        rw [← hrs2.1] at hhead
        simp only [List.head?_cons, Option.some.injEq] at hhead
        rw [hhead]
    · rw [hqf, hqq]
      simp

/-- C4: `xb_node_query_text` returns the text of the first matching node,
and writes a *not-found* error in exactly two situations: the query
produced no match (the evaluator's *not-found*, propagated verbatim), or
the matched node has no text (the "no text data" error), in both cases
returning the `none` sentinel. -/
theorem xb_node_query_text_not_found_cases (n : XbNode) (xp : String) :
    (∀ t, xb_node_query_text (some n) (some xp) = some (some t, none) ↔
       ∃ m, xb_node_query_first (some n) (some xp) = some (some m, none) ∧
         xb_node_get_text (some m) = some t) ∧
    (∀ e, (xb_node_query_text (some n) (some xp) = some (none, some e) ∧
        e.code = GIOErrorCode.notFound) ↔
      ((xb_node_query_first (some n) (some xp) = some (none, some noResultsError) ∧
          e = noResultsError) ∨
        (∃ m, xb_node_query_first (some n) (some xp) = some (some m, none) ∧
          xb_node_get_text (some m) = none ∧ e = noTextDataError))) := by
  rcases query_first_cases n xp with ⟨m0, rs0, hq, hqf⟩ | ⟨e0, hq, hqf⟩
  · have hqt : xb_node_query_text (some n) (some xp) =
        (match xb_node_get_text (some m0) with
         | none => some (none, some noTextDataError)
         | some t => some (some t, none)) := by
      simp only [xb_node_query_text]
      rw [hqf]
    cases ht : xb_node_get_text (some m0) with
    | none =>
      rw [ht] at hqt
      refine ⟨fun t => ?_, fun e => ?_⟩
      · rw [hqt]
        constructor
        · intro h'; simp at h'
        · rintro ⟨m, hm, htm⟩
          rw [hqf] at hm
          simp only [Option.some.injEq, Prod.mk.injEq] at hm
          rw [← hm.1] at htm
          rw [ht] at htm
          exact Option.noConfusion htm
      · rw [hqt]
        constructor
        · intro h'
          simp only [Option.some.injEq, Prod.mk.injEq, Option.some.injEq] at h'
          exact Or.inr ⟨m0, hqf, ht, h'.1.2.symm⟩
        · rintro (⟨hcontr, _⟩ | ⟨m, hm, htm, hee⟩)
          · rw [hqf] at hcontr
            simp at hcontr
          · rw [hee]
            exact ⟨rfl, rfl⟩
    | some t0 =>
      rw [ht] at hqt
      refine ⟨fun t => ?_, fun e => ?_⟩
      · rw [hqt]
        constructor
        · intro h'
          simp only [Option.some.injEq, Prod.mk.injEq] at h'
          exact ⟨m0, hqf, h'.1 ▸ ht⟩
        · rintro ⟨m, hm, htm⟩
          rw [hqf] at hm
          simp only [Option.some.injEq, Prod.mk.injEq] at hm
          rw [← hm.1] at htm
          rw [ht] at htm
          injection htm with htm'
          rw [htm']
      · rw [hqt]
        constructor
        · intro h'
          simp at h'
        · rintro (⟨hcontr, _⟩ | ⟨m, hm, htm, _⟩)
          · rw [hqf] at hcontr
            simp at hcontr
          · rw [hqf] at hm
            simp only [Option.some.injEq, Prod.mk.injEq] at hm
            rw [← hm.1] at htm
            rw [ht] at htm
            exact Option.noConfusion htm
  · have hqt : xb_node_query_text (some n) (some xp) = some (none, some e0) := by
      simp only [xb_node_query_text]
      rw [hqf]
    have hcases := xb_silo_query_error_cases hq
    refine ⟨fun t => ?_, fun e => ?_⟩
    · rw [hqt]
      constructor
      · intro h'; simp at h'
      · rintro ⟨m, hm, _⟩
        rw [hqf] at hm
        simp at hm
    · rw [hqt]
      constructor
      · intro h'
        have he0 : e = e0 := by
          have := h'.1
          simp only [Option.some.injEq, Prod.mk.injEq, Option.some.injEq] at this
          exact this.2.symm
        rcases hcases with hinv | hnr
        · exfalso
          rw [hinv] at he0
          rw [he0] at h'
          have := h'.2
          simp [invalidQueryError] at this
        · rw [hnr] at he0
          exact Or.inl ⟨by rw [hqf, hnr], by rw [he0]⟩
      · rintro (⟨hm, hee⟩ | ⟨m, hm, _, _⟩)
        · rw [hqf] at hm
          simp only [Option.some.injEq, Prod.mk.injEq, Option.some.injEq] at hm
          rw [hee]
          exact ⟨by rw [hm.2], rfl⟩
        · rw [hqf] at hm
          simp at hm

/-- C6: on a well-formed silo, enumerating `child` and then repeatedly
`next` terminates within the silo size, and the sequence obtained is
exactly what `xb_node_get_children` returns: the k-th element of
`children` is the k-th iterate of the silo's *next* primitive from the
child link, the iteration reaches `none` right after the last element, and
the offsets are strictly increasing (packed document order). -/
theorem xb_node_get_children_enumeration (s : XbSilo) (i : Nat)
    (hwf : s.wf = true) (hi : i < s.nodes.length) :
    (xb_node_get_children (some ⟨s, i⟩)).length ≤ s.nodes.length ∧
    (∀ k, ((xb_node_get_children (some ⟨s, i⟩)).map XbNode.sn)[k]? =
       nextIter s k (xb_silo_node_get_child s i)) ∧
    nextIter s (xb_node_get_children (some ⟨s, i⟩)).length
      (xb_silo_node_get_child s i) = none ∧
    List.Chain' (fun a b => a < b)
      ((xb_node_get_children (some ⟨s, i⟩)).map XbNode.sn) := by
  cases hc : xb_silo_node_get_child s i with
  | none =>
    have hch : xb_node_get_children (some ⟨s, i⟩) = [] := by
      unfold xb_node_get_children
      simp [xb_node_get_child, hc, childrenLoop]
    rw [hch]
    refine ⟨by simp, fun k => ?_, by simp [nextIter], by simp⟩
    simp [nextIter_of_none]
  | some c =>
    have hcl := silo_child_lt hwf hc
    have hch : xb_node_get_children (some ⟨s, i⟩) =
        (chainFrom s s.nodes.length c).map (fun o => (⟨s, o⟩ : XbNode)) := by
      unfold xb_node_get_children
      simp only [xb_node_get_child, hc, xb_silo_node_create]
      exact childrenLoop_eq_chain s s.nodes.length c
    have hmap : ((chainFrom s s.nodes.length c).map
        (fun o => (⟨s, o⟩ : XbNode))).map XbNode.sn = chainFrom s s.nodes.length c := by
      rw [List.map_map]
      exact List.map_id _
    rw [hch, hmap]
    have hlen : ((chainFrom s s.nodes.length c).map
        (fun o => (⟨s, o⟩ : XbNode))).length = (chainFrom s s.nodes.length c).length :=
      List.length_map _ _
    rw [hlen]
    refine ⟨?_, ?_, ?_, ?_⟩
    · exact chainFrom_length_le s s.nodes.length c
    · intro k
      exact chainFrom_getElem hwf s.nodes.length c hcl (by omega) k
    · have hk := chainFrom_getElem hwf s.nodes.length c hcl (by omega)
        (chainFrom s s.nodes.length c).length
      rw [List.getElem?_eq_none (le_refl _)] at hk
      exact hk.symm
    · exact chainFrom_chain' hwf s.nodes.length c hcl

/-- C6 witness: the root of the concrete silo for `<a><b/><c/><d/></a>`
satisfies the hypotheses, and the enumerated children are the three
siblings in document order. -/
theorem xb_node_get_children_enumeration_witness :
    siloKids.wf = true ∧ 0 < siloKids.nodes.length ∧
    (xb_node_get_children (some ⟨siloKids, 0⟩)).length ≤ siloKids.nodes.length ∧
    ((xb_node_get_children (some ⟨siloKids, 0⟩)).map XbNode.sn)[0]? =
      nextIter siloKids 0 (xb_silo_node_get_child siloKids 0) ∧
    List.Chain' (fun a b => a < b)
      ((xb_node_get_children (some ⟨siloKids, 0⟩)).map XbNode.sn) := by
  have h := xb_node_get_children_enumeration siloKids 0 (by decide) (by decide)
  exact ⟨by decide, by decide, h.1, h.2.1 0, h.2.2.2⟩

/-- C1 counterexample: on the silo for `<a><b>nope</b></a>` the text is
unparseable, yet `xb_node_query_text_as_uint` returns 0 (the host
parser's value) with no error written — not `G_MAXUINT64` and not
*not-found*; and on the silo for `<a><b>0xffffffffffffffff</b></a>` it
returns `G_MAXUINT64` without any error, so `G_MAXUINT64` is returned
without *not-found* being reported. -/
theorem xb_node_query_text_as_uint_counterexample :
    xb_node_query_text_as_uint (some nodeA) (some "b") = some (0, none) ∧
    (0 : Nat) ≠ G_MAXUINT64 ∧
    xb_node_query_text_as_uint (some nodeAMax) (some "b") =
      some (G_MAXUINT64, none) := by
  refine ⟨by decide, by decide, by decide⟩

/-- C1 amended: `xb_node_query_text_as_uint` parses the first match's text
as an unsigned 64-bit integer, base 16 when the text starts with `0x`
(case-sensitive) and base 10 otherwise.  On *no match* it returns
`G_MAXUINT64` with the evaluator's error propagated verbatim, and on *no
text* it returns `G_MAXUINT64` with the "no text data" *not-found* error;
unparseable text is not detected (the host parser's value, 0 when no digit
parses, is returned with no error), and text parsing to `G_MAXUINT64`
yields the sentinel value without any error. -/
theorem xb_node_query_text_as_uint_amended (n : XbNode) (xp : String) :
    (∀ e, xb_node_query_first (some n) (some xp) = some (none, some e) →
       xb_node_query_text_as_uint (some n) (some xp) = some (G_MAXUINT64, some e)) ∧
    (∀ m, xb_node_query_first (some n) (some xp) = some (some m, none) →
       (xb_node_get_text (some m) = none →
          xb_node_query_text_as_uint (some n) (some xp) =
            some (G_MAXUINT64, some noTextDataError)) ∧
       (∀ t, xb_node_get_text (some m) = some t →
          xb_node_query_text_as_uint (some n) (some xp) =
            some (if g_str_has_prefix t "0x" then
                    g_ascii_strtoull (t.toList.drop 2).asString 16
                  else g_ascii_strtoull t 10, none))) := by
  constructor
  · intro e he
    simp only [xb_node_query_text_as_uint]
    rw [he]
  · intro m hm
    constructor
    · intro ht
      simp only [xb_node_query_text_as_uint, hm, ht]
    · intro t ht
      simp only [xb_node_query_text_as_uint, hm, ht]
      split <;> rfl

/-- C1 amended witness: concrete runs discharging each hypothesis — the
no-match case propagates the evaluator's *not-found*, and the unparseable
text case returns the host parser's 0 with no error. -/
theorem xb_node_query_text_as_uint_amended_witness :
    xb_node_query_text_as_uint (some nodeA) (some "zz") =
      some (G_MAXUINT64, some noResultsError) ∧
    xb_node_query_text_as_uint (some nodeA) (some "b") =
      some (if g_str_has_prefix "nope" "0x" then
              g_ascii_strtoull ("nope".toList.drop 2).asString 16
            else g_ascii_strtoull "nope" 10, none) := by
  constructor
  · exact (xb_node_query_text_as_uint_amended nodeA "zz").1 noResultsError (by decide)
  · exact ((xb_node_query_text_as_uint_amended nodeA "b").2 ⟨siloNope, 1⟩
      (by decide)).2 "nope" (by decide)

/-- C2: a query issued from a node view hands the silo-level evaluator the
user expression prefixed with the view's element name and a `/` separator
— for both `xb_node_query` and `xb_node_query_first` (all other query
helpers are built on `xb_node_query_first`). -/
theorem xb_node_query_prefixes_element (n : XbNode) (xp : String) (lim : Nat)
    (el : String) (hel : xb_node_get_element (some n) = some el) :
    (xb_node_query (some n) (some xp) lim =
       match xb_silo_query_with_root n.silo n (el ++ "/" ++ xp) lim with
       | Except.error e => (none, some e)
       | Except.ok rs => (some rs, none)) ∧
    (xb_node_query_first (some n) (some xp) =
       match xb_silo_query_with_root n.silo n (el ++ "/" ++ xp) 1 with
       | Except.error e => some (none, some e)
       | Except.ok rs =>
         match rs.head? with
         | some m => some (some m, none)
         | none => none) := by
  have hj : g_strjoin2 "/" (xb_node_get_element (some n)) xp = el ++ "/" ++ xp := by
    rw [hel]
    rfl
  constructor
  · simp only [xb_node_query, xb_node_get_silo]
    rw [hj]
  · simp only [xb_node_query_first, xb_node_get_silo]
    rw [hj]

/-- C2 witness: on the concrete silo for `<a><b>nope</b></a>`, whose root
element is `"a"`, the hypothesis holds and both queries evaluate the
prefixed expression. -/
theorem xb_node_query_prefixes_element_witness :
    xb_node_get_element (some nodeA) = some "a" ∧
    xb_node_query (some nodeA) (some "b") 5 =
      (match xb_silo_query_with_root nodeA.silo nodeA ("a" ++ "/" ++ "b") 5 with
       | Except.error e => (none, some e)
       | Except.ok rs => (some rs, none)) :=
  ⟨by decide, (xb_node_query_prefixes_element nodeA "b" 5 "a" (by decide)).1⟩

/-- C5 witness: the root of the concrete well-formed silo for
`<a><b/><c/><d/></a>`: its parent is absent while its child is a valid
in-silo view. -/
theorem xb_node_traversal_absence_safe_witness :
    siloKids.wf = true ∧ 0 < siloKids.nodes.length ∧
    (xb_node_get_parent (some ⟨siloKids, 0⟩) = none ↔
      xb_silo_node_get_parent siloKids 0 = none) ∧
    (∀ m, xb_node_get_child (some ⟨siloKids, 0⟩) = some m →
      m.silo = siloKids ∧ m.sn < siloKids.nodes.length) := by
  have h := xb_node_traversal_absence_safe siloKids 0 (by decide) (by decide)
  exact ⟨by decide, by decide, h.1.2, h.2.2.1.1⟩

theorem getD_set_self : ∀ (l : List Nat) (i v : Nat), i < l.length →
    (l.set i v).getD i 0 = v := by
  intro l
  induction l with
  | nil => intro i v h; simp at h
  | cons a l ih =>
    intro i v h
    cases i with
    | zero => rfl
    | succ i =>
      simp only [List.set, List.getD_cons_succ]
      exact ih i v (by simpa using h)

theorem getD_set_ne : ∀ (l : List Nat) (i j v : Nat), i ≠ j →
    (l.set i v).getD j 0 = l.getD j 0 := by
  intro l
  induction l with
  | nil => intro i j v _; simp [List.set]
  | cons a l ih =>
    intro i j v hne
    cases i with
    | zero =>
      cases j with
      | zero => exact absurd rfl hne
      | succ j => rfl
    | succ i =>
      cases j with
      | zero => rfl
      | succ j =>
        simp only [List.set, List.getD_cons_succ]
        exact ih i j v (fun h => hne (by rw [h]))

theorem xb_node_finalize_siloRefs (obj : XbNodeObj) (h : GRefHeap) :
    (xb_node_finalize obj h).siloRefs = h.siloRefs := by
  unfold xb_node_finalize
  induction obj.dataMap generalizing h with
  | nil => rfl
  | cons p rest ih => simpa [g_bytes_unref] using ih (g_bytes_unref h p.2)

/-- C8 counterexample: constructing a node view with `xb_node_new` leaves
the silo's reference count unchanged (1 stays 1, it does not become 2), so
the node view does not hold a strong reference to its silo from
construction: releasing the caller's only reference frees the silo while
the view still exists. -/
theorem xb_node_new_no_silo_ref_counterexample :
    ((xb_node_new siloNope 0 ⟨1, []⟩).2).siloRefs = 1 ∧
    ¬ ((xb_node_new siloNope 0 ⟨1, []⟩).2).siloRefs = 2 := by
  exact ⟨rfl, by decide⟩

/-- C8 amended: a node view stores only a borrowed pointer to its silo —
`xb_node_new` leaves the silo's reference count unchanged, as does
destruction — while it does hold a strong reference to each byte buffer
installed in its node-data map: `xb_node_set_data` takes one reference on
the new buffer, replacement of an entry releases the old buffer's
reference, and destruction releases each installed buffer's reference. -/
theorem xb_node_refcount_amended (h : GRefHeap) (silo : XbSilo) (sn : Nat)
    (obj : XbNodeObj) (k : String) (d : Nat) :
    ((xb_node_new silo sn h).2 = h) ∧
    ((xb_node_new silo sn h).1.dataMap = []) ∧
    (d < h.bytesRefs.length → lookupData obj.dataMap k = none →
      ((xb_node_set_data obj (some k) (some d) h).2).bytesRefs.getD d 0 =
        h.bytesRefs.getD d 0 + 1) ∧
    (∀ old, d < h.bytesRefs.length → old ≠ d → lookupData obj.dataMap k = some old →
      ((xb_node_set_data obj (some k) (some d) h).2).bytesRefs.getD d 0 =
        h.bytesRefs.getD d 0 + 1 ∧
      ((xb_node_set_data obj (some k) (some d) h).2).bytesRefs.getD old 0 =
        h.bytesRefs.getD old 0 - 1) ∧
    (∀ (v : XbNode),
      (xb_node_finalize ⟨v, [(k, d)]⟩ h).bytesRefs.getD d 0 =
        h.bytesRefs.getD d 0 - 1) ∧
    ((xb_node_finalize obj h).siloRefs = h.siloRefs) := by
  refine ⟨rfl, rfl, ?_, ?_, ?_, xb_node_finalize_siloRefs obj h⟩
  · intro hd hk
    simp only [xb_node_set_data, hk, g_bytes_ref]
    exact getD_set_self h.bytesRefs d _ hd
  · intro old hd hne hk
    simp only [xb_node_set_data, hk, g_bytes_ref, g_bytes_unref]
    constructor
    · rw [getD_set_ne _ old d _ hne]
      exact getD_set_self h.bytesRefs d _ hd
    · have hlen : (h.bytesRefs.set d (h.bytesRefs.getD d 0 + 1)).getD old 0 =
          h.bytesRefs.getD old 0 := getD_set_ne _ d old _ (fun hh => hne hh.symm)
      by_cases hol : old < h.bytesRefs.length
      · rw [getD_set_self _ old _ (by simpa using hol), hlen]
      · have h1 : (h.bytesRefs.set d (h.bytesRefs.getD d 0 + 1)).set old
            ((h.bytesRefs.set d (h.bytesRefs.getD d 0 + 1)).getD old 0 - 1) =
            h.bytesRefs.set d (h.bytesRefs.getD d 0 + 1) := by
          apply List.set_eq_of_length_le
          simpa using Nat.le_of_not_lt hol
        rw [h1, hlen]
        have hnone : h.bytesRefs.getD old 0 = 0 := by
          rw [List.getD_eq_getElem?_getD, List.getElem?_eq_none (Nat.le_of_not_lt hol)]
          rfl
        rw [hnone]
  · intro v
    simp only [xb_node_finalize, List.foldl, g_bytes_unref]
    by_cases hdl : d < h.bytesRefs.length
    · exact getD_set_self h.bytesRefs d _ hdl
    · rw [List.set_eq_of_length_le (Nat.le_of_not_lt hdl)]
      have hnone : h.bytesRefs.getD d 0 = 0 := by
        rw [List.getD_eq_getElem?_getD, List.getElem?_eq_none (Nat.le_of_not_lt hdl)]
        rfl
      rw [hnone]

/-- C8 amended witness: a concrete run — one silo reference, two buffers
each with one outside reference; installing buffer 0, replacing it with
buffer 1, and finalizing move exactly the documented counts. -/
theorem xb_node_refcount_amended_witness :
    0 < (GRefHeap.mk 1 [1, 1]).bytesRefs.length ∧
    lookupData (XbNodeObj.mk ⟨siloNope, 0⟩ []).dataMap "k" = none ∧
    ((xb_node_set_data (XbNodeObj.mk ⟨siloNope, 0⟩ []) (some "k") (some 0)
        (GRefHeap.mk 1 [1, 1])).2).bytesRefs.getD 0 0 =
      (GRefHeap.mk 1 [1, 1]).bytesRefs.getD 0 0 + 1 ∧
    ((xb_node_new siloNope 0 (GRefHeap.mk 1 [1, 1])).2 = GRefHeap.mk 1 [1, 1]) := by
  refine ⟨by decide, by decide, ?_, ?_⟩
  · exact (xb_node_refcount_amended (GRefHeap.mk 1 [1, 1]) siloNope 0
      (XbNodeObj.mk ⟨siloNope, 0⟩ []) "k" 0).2.2.1 (by decide) (by decide)
  · exact (xb_node_refcount_amended (GRefHeap.mk 1 [1, 1]) siloNope 0
      (XbNodeObj.mk ⟨siloNope, 0⟩ []) "k" 0).1

/-- C9 counterexample: running an unknown command prints the usage help —
the failure is the "Command not found" error, which is not an
invalid-arguments error, so help is not printed exactly on
invalid-arguments failures. -/
theorem xb_tool_help_not_only_invalid_args :
    xb_tool_main none collabOk false (some "foo") [] =
      ⟨EXIT_FAILURE, true, some "Command not found"⟩ ∧
    isInvalidArgsMessage ⟨gIOErrorQuark, GIOErrorCode.failed, "Command not found"⟩
      = false := by
  exact ⟨by decide, by decide⟩

/-- C9 amended: the CLI exits 0 on success and 1 on failure; on a command
failure the error message is printed, and the usage help is additionally
printed exactly when the error matches `G_IO_ERROR`/`G_IO_ERROR_FAILED` —
the code used by the invalid-arguments errors, but also by
"Command not found".  An option-parse failure prints its own message, no
help, and exits 1.  Every "Invalid arguments" error a command sets does
match `G_IO_ERROR_FAILED` (shown here for `query` with a wrong argument
count), so invalid-arguments failures always get the usage help. -/
theorem xb_tool_main_exit_amended (collab : XbToolCollab) (force : Bool)
    (cmd : Option String) (values : List String) :
    EXIT_SUCCESS = 0 ∧ EXIT_FAILURE = 1 ∧
    (∀ u, xb_tool_run collab force cmd values = Except.ok u →
      xb_tool_main none collab force cmd values = ⟨EXIT_SUCCESS, false, none⟩) ∧
    (∀ e, xb_tool_run collab force cmd values = Except.error e →
      xb_tool_main none collab force cmd values =
        ⟨EXIT_FAILURE, g_error_matches e gIOErrorQuark GIOErrorCode.failed,
          some e.message⟩) ∧
    (∀ m, xb_tool_main (some m) collab force cmd values =
      ⟨EXIT_FAILURE, false, some ("Failed to parse arguments: " ++ m)⟩) ∧
    (cmd = some "query" → values.length ≠ 2 →
      xb_tool_run collab force cmd values =
        Except.error (invalidArgsError "FILENAME QUERY" "example.xmlb") ∧
      g_error_matches (invalidArgsError "FILENAME QUERY" "example.xmlb")
        gIOErrorQuark GIOErrorCode.failed = true) := by
  refine ⟨rfl, rfl, ?_, ?_, fun m => rfl, ?_⟩
  · intro u hu
    unfold xb_tool_main
    rw [hu]
  · intro e he
    unfold xb_tool_main
    rw [he]
    cases hcond : g_error_matches e gIOErrorQuark GIOErrorCode.failed <;> simp [hcond]
  · intro hcmd hlen
    subst hcmd
    constructor
    · unfold xb_tool_run
      rw [show g_strcmp0_eq (some "query") "compile" = false from by decide,
        show g_strcmp0_eq (some "query") "dump" = false from by decide,
        show g_strcmp0_eq (some "query") "export" = false from by decide,
        show g_strcmp0_eq (some "query") "query" = true from by decide]
      simp only [Bool.false_eq_true, if_false, if_true]
      unfold xb_tool_query
      rw [if_pos hlen]
    · decide

/-- C9 amended witness: a failed option parse exits 1 with its message and
no help, and `query` with zero arguments produces the invalid-arguments
error that matches `G_IO_ERROR_FAILED`. -/
theorem xb_tool_main_exit_amended_witness :
    xb_tool_main (some "x") collabOk false none [] =
      ⟨EXIT_FAILURE, false, some ("Failed to parse arguments: " ++ "x")⟩ ∧
    xb_tool_run collabOk false (some "query") [] =
      Except.error (invalidArgsError "FILENAME QUERY" "example.xmlb") := by
  refine ⟨(xb_tool_main_exit_amended collabOk false none []).2.2.2.2.1 "x", ?_⟩
  exact ((xb_tool_main_exit_amended collabOk false (some "query") []).2.2.2.2.2
    rfl (by decide)).1
